import Mathlib

/-!
Verification of the content-blitz repository.

Shallow embedding of the two core components and their boundaries:

* `src/backend/FreeSearchAggregator.py` — the evidence aggregator
  (provider clients, per-provider normalization, concatenation, URL dedup);
* `src/backend/graph.py` — the five-step LangGraph pipeline
  (research, strategist, and the three terminal writer branches);
* `src/backend/main.py` together with `src/backend/agent.py` — the HTTP
  boundary.

External collaborators (network clients, the Gemini text model, the
image-generation endpoint, environment variables) are modelled as
explicit oracles passed in as plain data, so that every definition is
executable.  Exceptions are modelled with `Except`: a Python
`try ... except` corresponds to a `match` on the `Except` value.
-/

/-- One normalized search hit: the dict shape produced by the
normalization helpers in FreeSearchAggregator.py.  Keys that only some
providers emit (rank, score, stars) are Option-valued, `none` meaning
the key is absent from the dict. -/
structure SearchHit where
  title : String
  snippet : String
  url : String
  domain : String
  source : String
  rank : Option Nat := none
  score : Option Int := none
  stars : Option Nat := none
  deriving DecidableEq, Repr

/-- Raw DuckDuckGo result dict as consumed by _normalize_duckduckgo
(keys title, body, href; a missing key is read as the empty string via
dict.get defaults). -/
structure DDGRaw where
  title : String
  body : String
  href : String
  deriving DecidableEq, Repr

/-- Raw Brave result dict as consumed by _normalize_brave. -/
structure BraveRaw where
  title : String
  description : String
  url : String
  deriving DecidableEq, Repr

/-- Parsed Wikipedia opensearch payload: data[1], data[2], data[3] of the
JSON response (titles, descriptions, urls). -/
structure WikiRaw where
  titles : List String
  descriptions : List String
  urls : List String
  deriving DecidableEq, Repr

/-- Raw Reddit post dict (fields read by search_reddit). -/
structure RedditRaw where
  title : String
  selftext : String
  permalink : String
  score : Int
  deriving DecidableEq, Repr

/-- Raw arXiv Atom entry (fields read by search_arxiv). -/
structure ArxivRaw where
  title : String
  summary : String
  idLink : String
  deriving DecidableEq, Repr

/-- Raw GitHub repository item (fields read by search_github). -/
structure GithubRaw where
  full_name : String
  description : String
  html_url : String
  stars : Nat
  deriving DecidableEq, Repr

/-- The external provider clients, one oracle per provider.  Each network
call is a function of the query and the per-call result cap; `Except`
covers every way the call can raise (timeout, malformed payload, JSON
shape errors).  `braveEnv` models os.getenv as seen by search_brave. -/
structure ProviderClients where
  ddg : String → Nat → Except String (List DDGRaw)
  braveEnv : String → Option String
  braveNet : String → Nat → Except String (List BraveRaw)
  wiki : String → Nat → Except String WikiRaw
  reddit : String → Nat → Except String (List RedditRaw)
  arxiv : String → Nat → Except String (List ArxivRaw)
  github : String → Nat → Except String (List GithubRaw)

/-- Scan for the first "//" in a character list and return what follows,
or `none` when there is no "//". -/
def dropUntilSlashSlash : List Char → Option (List Char)
  | [] => none
  | '/' :: '/' :: rest => some rest
  | _ :: rest => dropUntilSlashSlash rest

/-- Characters of a netloc: everything up to the next path, query or
fragment delimiter. -/
def takeNetloc (cs : List Char) : List Char :=
  cs.takeWhile (fun c => c != '/' && c != '?' && c != '#')

/-- Models _extract_domain, i.e. urllib.parse.urlparse(url).netloc for the
URL shapes the providers emit: the text after the first "//" up to the
next one of "/", "?", "#"; empty when the URL has no "//" part (urlparse
then parses everything as the path, netloc is empty). -/
def extract_domain (url : String) : String :=
  match dropUntilSlashSlash url.toList with
  | none => ""
  | some rest => String.mk (takeNetloc rest)

/-- _normalize_duckduckgo: field renaming plus a 1-based rank. -/
def normalize_duckduckgo (results : List DDGRaw) : List SearchHit :=
  results.enum.map (fun p =>
    { title := p.2.title
      snippet := p.2.body
      url := p.2.href
      domain := extract_domain p.2.href
      source := "duckduckgo"
      rank := some (p.1 + 1) })

/-- _normalize_brave: field renaming plus a 1-based rank. -/
def normalize_brave (results : List BraveRaw) : List SearchHit :=
  results.enum.map (fun p =>
    { title := p.2.title
      snippet := p.2.description
      url := p.2.url
      domain := extract_domain p.2.url
      source := "brave"
      rank := some (p.1 + 1) })

/-- search_duckduckgo: the DDGS client call inside try/except; a raised
exception is caught and yields the empty list. -/
def search_duckduckgo (c : ProviderClients) (query : String) (max_results : Nat) : List SearchHit :=
  match c.ddg query max_results with
  | Except.error _ => []
  | Except.ok results => normalize_duckduckgo results

/-- Names brought in at module top level in FreeSearchAggregator.py:
requests, DDGS from ddgs, the typing helpers, and json.  The os module
is not among them. -/
def aggregatorImports : List String := ["requests", "ddgs", "typing", "json"]

/-- Which return statement of search_brave produced the result.  The
exception-handler exit is observable: that path prints a failure
message before returning. -/
inductive BraveExit
  | credentialCheck
  | exceptionHandler
  | success
  deriving DecidableEq, Repr

/-- search_brave with an exit marker.  The body begins with
api_key = os.getenv("BRAVE_API_KEY"); since os is never imported in
FreeSearchAggregator.py, evaluating that line raises NameError no matter
what the environment holds, the except clause catches it, and [] is
returned.  The credential check and the network request are reachable
only if os were imported. -/
def search_brave_run (c : ProviderClients) (query : String) (max_results : Nat) :
    List SearchHit × BraveExit :=
  if aggregatorImports.contains ("os") then
    match c.braveEnv ("BRAVE_API_KEY") with
    | none => ([], BraveExit.credentialCheck)
    | some _ =>
      match c.braveNet query max_results with
      | Except.error _ => ([], BraveExit.exceptionHandler)
      | Except.ok results => (normalize_brave results, BraveExit.success)
  else
    ([], BraveExit.exceptionHandler)

/-- search_brave as called by aggregate_search (the returned list). -/
def search_brave (c : ProviderClients) (query : String) (max_results : Nat) : List SearchHit :=
  (search_brave_run c query max_results).1

/-- search_wikipedia: iterates i over range(len(titles)) reading
descriptions[i] and urls[i]; if either list is shorter the loop raises
IndexError, the whole call is caught and yields [].  Network or JSON
failures are the `Except.error` case. -/
def search_wikipedia (c : ProviderClients) (query : String) (max_results : Nat) : List SearchHit :=
  match c.wiki query max_results with
  | Except.error _ => []
  | Except.ok w =>
    if w.descriptions.length < w.titles.length || w.urls.length < w.titles.length then
      []
    else
      (List.range w.titles.length).map (fun i =>
        { title := w.titles.getD i ""
          snippet := w.descriptions.getD i ""
          url := w.urls.getD i ""
          domain := "wikipedia.org"
          source := "wikipedia" })

/-- search_reddit: selftext truncated to 300 characters, permalink turned
into an absolute reddit.com URL, score carried over. -/
def search_reddit (c : ProviderClients) (query : String) (max_results : Nat) : List SearchHit :=
  match c.reddit query max_results with
  | Except.error _ => []
  | Except.ok posts =>
    posts.map (fun p =>
      { title := p.title
        snippet := p.selftext.take 300
        url := "https://reddit.com" ++ p.permalink
        domain := "reddit.com"
        source := "reddit"
        score := some p.score })

/-- search_arxiv: title and summary stripped of surrounding whitespace,
summary truncated to 300 characters, the entry id used as the URL. -/
def search_arxiv (c : ProviderClients) (query : String) (max_results : Nat) : List SearchHit :=
  match c.arxiv query max_results with
  | Except.error _ => []
  | Except.ok entries =>
    entries.map (fun e =>
      { title := e.title.trim
        snippet := (e.summary.trim).take 300
        url := e.idLink
        domain := "arxiv.org"
        source := "arxiv" })

/-- search_github: description truncated to 300 characters, star count
carried over. -/
def search_github (c : ProviderClients) (query : String) (max_results : Nat) : List SearchHit :=
  match c.github query max_results with
  | Except.error _ => []
  | Except.ok repos =>
    repos.map (fun r =>
      { title := r.full_name
        snippet := r.description.take 300
        url := r.html_url
        domain := "github.com"
        source := "github"
        stars := some r.stars })

/-- The dedup loop of aggregate_search: scan in order, keep a record only
when its url is non-empty and not yet seen (seen_urls is modelled as the
list of urls added so far; only membership is used). -/
def dedupAux : List String → List SearchHit → List SearchHit
  | _, [] => []
  | seen, r :: rest =>
    if r.url ≠ "" ∧ r.url ∉ seen then
      r :: dedupAux (r.url :: seen) rest
    else
      dedupAux seen rest

/-- The default provider set used when aggregate_search is called with
sources=None. -/
def defaultSources : List String := ["duckduckgo", "wikipedia", "reddit"]

/-- The concatenation built by aggregate_search: one membership test per
provider, in the fixed textual order of the method body, each provider
called with its default per-call cap (10 for duckduckgo and brave, 5 for
the rest). -/
def concatResults (c : ProviderClients) (query : String) (sources : List String) :
    List SearchHit :=
  (if sources.contains ("duckduckgo") then search_duckduckgo c query 10 else []) ++
  (if sources.contains ("brave") then search_brave c query 10 else []) ++
  (if sources.contains ("wikipedia") then search_wikipedia c query 5 else []) ++
  (if sources.contains ("reddit") then search_reddit c query 5 else []) ++
  (if sources.contains ("arxiv") then search_arxiv c query 5 else []) ++
  (if sources.contains ("github") then search_github c query 5 else [])

/-- aggregate_search: concatenate the per-provider lists (default set when
sources is None), then deduplicate by URL. -/
def aggregate_search (c : ProviderClients) (query : String) (sources : Option (List String)) :
    List SearchHit :=
  dedupAux [] (concatResults c query (sources.getD defaultSources))

/-- The per-provider result list for one provider name, as the spec
enumerates providers. -/
def providerResult (c : ProviderClients) (query : String) : String → List SearchHit
  | "duckduckgo" => search_duckduckgo c query 10
  | "brave" => search_brave c query 10
  | "wikipedia" => search_wikipedia c query 5
  | "reddit" => search_reddit c query 5
  | "arxiv" => search_arxiv c query 5
  | "github" => search_github c query 5
  | _ => []

/-- Modelled from the words of the specification, for comparison with the
source: concatenation of the provider result lists in the order in which
the requested provider set lists them. -/
def requestedOrderConcat (c : ProviderClients) (query : String) (sources : List String) :
    List SearchHit :=
  (sources.map (providerResult c query)).flatten

/-! ## The pipeline of graph.py -/

/-- One structured step-trace record, as appended to node_details. -/
structure NodeDetail where
  node : String
  input : String
  output : String
  deriving DecidableEq, Repr

/-- The shared pipeline state (the AgentState TypedDict).  Every field
except request and the two accumulating sequences starts absent
(`none`). -/
structure AgentState where
  request : String
  research_data : Option (List SearchHit) := none
  content_plan : Option String := none
  blog_post : Option String := none
  linkedin_post : Option String := none
  image_prompt : Option String := none
  image_url : Option String := none
  logs : List String := []
  node_details : List NodeDetail := []
  deriving DecidableEq, Repr

/-- The partial update a node returns.  A scalar field is `some` exactly
when the returned dict contains that key; logs and node_details are the
entries to merge via the operator.add reducer.  There is no request
field: no node ever returns one. -/
structure NodeUpdate where
  research_data : Option (List SearchHit) := none
  content_plan : Option String := none
  blog_post : Option String := none
  linkedin_post : Option String := none
  image_prompt : Option String := none
  image_url : Option String := none
  logs : List String := []
  node_details : List NodeDetail := []
  deriving DecidableEq, Repr

/-- Replace-once semantics of a scalar channel: a returned value wins,
otherwise the stored value is kept. -/
def setOnce (new old : Option α) : Option α :=
  match new with
  | some v => some v
  | none => old

/-- Merge one node result into the shared state: scalars replace-once,
the in-place list appends (pre) and the returned entries are
concatenated onto logs, node_details entries are concatenated. -/
def applyUpdate (s : AgentState) (pre : List String) (u : NodeUpdate) : AgentState :=
  { request := s.request
    research_data := setOnce u.research_data s.research_data
    content_plan := setOnce u.content_plan s.content_plan
    blog_post := setOnce u.blog_post s.blog_post
    linkedin_post := setOnce u.linkedin_post s.linkedin_post
    image_prompt := setOnce u.image_prompt s.image_prompt
    image_url := setOnce u.image_url s.image_url
    logs := s.logs ++ (pre ++ u.logs)
    node_details := s.node_details ++ u.node_details }

/-- The external capabilities used by graph.py: the Gemini chat model
(llm.invoke), the image endpoint (client.images.generate down to
data[0].url), the OPENAI_API_KEY environment lookup, and the provider
clients used by the research step.  Each may fail (`Except.error`). -/
structure Oracles where
  llm : String → Except String String
  imageGen : String → Except String String
  openaiKey : Option String
  providers : ProviderClients

/-- Rendering of a list of result dicts inside an f-string
(str() of the Python list).  The exact wording of prompts and summaries
is outside the specified scope, so the rendering is abridged; it is a
definite executable function of the hits. -/
def pyStrHits (hs : List SearchHit) : String :=
  "[" ++ String.intercalate ", " (hs.map (fun h => h.title ++ " | " ++ h.url)) ++ "]"

/-- The strategist prompt built from request and research data. -/
def strategistPrompt (request research : String) : String :=
  "\n    You are a Content Strategist.\n    User Request: " ++ request ++
  "\n    Research Data: " ++ research ++
  "\n\n    Create a comprehensive content strategy.\n    1. Identify the target audience.\n    2. Define the core message.\n    3. Outline the structure for a Blog Post and a LinkedIn Post.\n    "

/-- The SEO writer prompt built from the content plan. -/
def seoPrompt (plan : String) : String :=
  "\n    You are an SEO Blog Writer.\n    Content Plan: " ++ plan ++
  "\n\n    Write a high-quality, SEO-optimized blog post based on the plan.\n    Include a catchy title, headers, and engaging content.\n    "

/-- The LinkedIn writer prompt built from the content plan. -/
def linkedinPrompt (plan : String) : String :=
  "\n    You are a LinkedIn Content Creator.\n    Content Plan: " ++ plan ++
  "\n\n    Write an engaging LinkedIn post based on the plan.\n    Use professional yet conversational tone, bullet points, and hashtags.\n    "

/-- The designer prompt built from the content plan. -/
def designerPrompt (plan : String) : String :=
  "\n    You are a Visual Designer.\n    Content Plan: " ++ plan ++
  "\n\n    Create a detailed image generation prompt for DALL-E 3 or Midjourney that would visually represent this content.\n    "

/-- The placeholder reference the designer substitutes when image
generation fails. -/
def placeholderUrl : String := "https://placehold.co/600x400?text=Image+Generation+Failed"

/-- research_node.  It performs no generation call and its own body
cannot raise (aggregate_search is total), so its result is a plain pair:
the log entries it appends in place, and the partial update it returns.
Console-only output (log_node_start, log_node_end) carries no state and
is not modelled. -/
def research_node (o : Oracles) (s : AgentState) : List String × NodeUpdate :=
  let raw := aggregate_search o.providers s.request (some ["duckduckgo", "wikipedia", "reddit"])
  (["Researcher: Searching for \u0027" ++ s.request ++ "\u0027..."],
   { research_data := some raw
     logs := ["Researcher: Found data on \u0027" ++ s.request ++ "\u0027."]
     node_details := [{ node := "Deep Research Agent"
                        input := "Query: " ++ s.request
                        output := "Search Results: " ++ pyStrHits (raw.take 500) ++ "..." }] })

/-- strategist_node.  Reading state[research_data] raises KeyError when
the field is absent; the llm.invoke call sits in no try/except, so its
failure propagates out of the node. -/
def strategist_node (o : Oracles) (s : AgentState) :
    Except String (List String × NodeUpdate) :=
  match s.research_data with
  | none => Except.error ("KeyError: research_data")
  | some research =>
    match o.llm (strategistPrompt s.request (pyStrHits research)) with
    | Except.error e => Except.error e
    | Except.ok resp =>
      Except.ok
        (["Strategist: Analyzing research and creating content plan..."],
         { content_plan := some resp
           logs := ["Strategist: Content plan created."]
           node_details := [{ node := "Content Strategist Agent"
                              input := "Request: " ++ s.request ++ "\nResearch Data: " ++
                                       pyStrHits (research.take 200) ++ "..."
                              output := "Content Plan: " ++ resp.take 500 ++ "..." }] })

/-- seo_writer_node.  The llm.invoke call sits in no try/except. -/
def seo_writer_node (o : Oracles) (s : AgentState) :
    Except String (List String × NodeUpdate) :=
  match s.content_plan with
  | none => Except.error ("KeyError: content_plan")
  | some plan =>
    match o.llm (seoPrompt plan) with
    | Except.error e => Except.error e
    | Except.ok resp =>
      Except.ok
        (["SEO Writer: Drafting blog post..."],
         { blog_post := some resp
           logs := ["SEO Writer: Blog post drafted."]
           node_details := [{ node := "SEO Blog Writer Agent"
                              input := "Content Plan: " ++ plan.take 200 ++ "..."
                              output := "Blog Post: " ++ resp.take 500 ++ "..." }] })

/-- linkedin_writer_node.  The llm.invoke call sits in no try/except. -/
def linkedin_writer_node (o : Oracles) (s : AgentState) :
    Except String (List String × NodeUpdate) :=
  match s.content_plan with
  | none => Except.error ("KeyError: content_plan")
  | some plan =>
    match o.llm (linkedinPrompt plan) with
    | Except.error e => Except.error e
    | Except.ok resp =>
      Except.ok
        (["LinkedIn Writer: Drafting social post..."],
         { linkedin_post := some resp
           logs := ["LinkedIn Writer: Post drafted."]
           node_details := [{ node := "LinkedIn Writer Agent"
                              input := "Content Plan: " ++ plan.take 200 ++ "..."
                              output := "LinkedIn Post: " ++ resp.take 500 ++ "..." }] })

/-- The try-block of image_gen_node up to the image URL: raise ValueError
when OPENAI_API_KEY is missing, otherwise the OpenAI images.generate call
(including data[0].url access), whose failures are the error case. -/
def imageAttempt (o : Oracles) (p : String) : Except String String :=
  match o.openaiKey with
  | none => Except.error ("OPENAI_API_KEY not found")
  | some _ => o.imageGen p

/-- image_gen_node.  The text llm.invoke producing the image prompt sits
outside the try block, so its failure propagates; the image generation
attempt is caught, substituting the placeholder reference and logging
the failure reason. -/
def image_gen_node (o : Oracles) (s : AgentState) :
    Except String (List String × NodeUpdate) :=
  match s.content_plan with
  | none => Except.error ("KeyError: content_plan")
  | some plan =>
    match o.llm (designerPrompt plan) with
    | Except.error e => Except.error e
    | Except.ok ip =>
      let pre := ["Designer: Creating visual concepts...",
                  "Image prompt: \u0027" ++ ip ++ "\u0027"]
      match imageAttempt o ip with
      | Except.ok url =>
        Except.ok
          (pre,
           { image_prompt := some ip
             image_url := some url
             logs := ["Designer: Image generated successfully."]
             node_details := [{ node := "Image Generation Agent"
                                input := "Content Plan: " ++ plan.take 200 ++ "..."
                                output := "Image Prompt: " ++ ip ++ "\nImage URL: " ++ url }] })
      | Except.error e =>
        Except.ok
          (pre,
           { image_prompt := some ip
             image_url := some placeholderUrl
             logs := ["Designer: Image generation failed: " ++ e]
             node_details := [{ node := "Image Generation Agent"
                                input := "Content Plan: " ++ plan.take 200 ++ "..."
                                output := "Error: " ++ e }] })

/-- The three terminal branches that fan out after the strategist. -/
inductive Branch
  | seo
  | linkedin
  | designer
  deriving DecidableEq, Repr

/-- Dispatch a branch name to its node function. -/
def branchNode : Branch → Oracles → AgentState → Except String (List String × NodeUpdate)
  | Branch.seo => seo_writer_node
  | Branch.linkedin => linkedin_writer_node
  | Branch.designer => image_gen_node

/-- The initial state built from the incoming request: every other field
absent, accumulators empty. -/
def initState (q : String) : AgentState := { request := q }

/-- Execute the fan-out superstep.  Each branch reads the snapshot state
produced by the strategist (`snap`); its writes are merged into the
evolving shared state.  The list argument is the order in which the
scheduler happens to run the three independent branches; nothing
downstream may depend on it.  A branch whose node raises aborts the
whole invoke call, exactly as an uncaught exception inside a LangGraph
node does. -/
def runBranches (o : Oracles) (snap : AgentState) :
    AgentState → List Branch → Except String AgentState
  | s, [] => Except.ok s
  | s, b :: rest =>
    match branchNode b o snap with
    | Except.error e => Except.error e
    | Except.ok pu => runBranches o snap (applyUpdate s pu.1 pu.2) rest

/-- app.invoke on the compiled graph: researcher, then strategist, then
the three-way fan-out with no rejoining step.  `perm` is the scheduling
order of the three independent terminal branches. -/
def invoke (o : Oracles) (perm : List Branch) (q : String) : Except String AgentState :=
  let s0 := initState q
  let r1 := research_node o s0
  let s1 := applyUpdate s0 r1.1 r1.2
  match strategist_node o s1 with
  | Except.error e => Except.error e
  | Except.ok pu =>
    runBranches o (applyUpdate s1 pu.1 pu.2) (applyUpdate s1 pu.1 pu.2) perm

/-! ## The HTTP boundary of main.py -/

/-- The names defined at module top level by src/backend/agent.py (its
imports and its own definitions).  run_multi_agent_system is not among
them. -/
def agentModuleNames : List String :=
  ["os", "time", "load_dotenv", "genai", "Console", "Panel",
   "console", "log_step", "api_key", "model", "generate_response"]

/-- Attribute lookup of agent.run_multi_agent_system as performed by
query_agent.  agent.py defines no such attribute, so the lookup yields
none (AttributeError); the guarded branch is unreachable and carries a
trivially failing callable. -/
def run_multi_agent_system_attr : Option (String → Except String AgentState) :=
  if agentModuleNames.contains ("run_multi_agent_system") then
    some (fun _ => Except.error ("unreachable"))
  else
    none

/-- Outcome of one POST /query request. -/
inductive HTTPResult
  | ok (body : AgentState)
  | httpError (status : Nat) (detail : String)
  deriving Repr

/-- query_agent of main.py: delegate to agent.run_multi_agent_system
inside try/except; any exception (including the AttributeError from the
missing attribute) becomes HTTPException(500, str(e)). -/
def query_agent (q : String) : HTTPResult :=
  match run_multi_agent_system_attr with
  | some f =>
    match f q with
    | Except.ok s => HTTPResult.ok s
    | Except.error e => HTTPResult.httpError 500 e
  | none =>
    HTTPResult.httpError 500
      ("module \u0027backend.agent\u0027 has no attribute \u0027run_multi_agent_system\u0027")

/-! ## Derived definitions and concrete data used in the statements -/

/-- The evidence list the research step stores: the aggregator invoked
with the provider set hard-coded in research_node. -/
def researchHits (o : Oracles) (q : String) : List SearchHit :=
  aggregate_search o.providers q (some ["duckduckgo", "wikipedia", "reddit"])

/-- The content plan a run produces when every llm call succeeds and
returns `txt` of its prompt. -/
def successPlan (o : Oracles) (txt : String → String) (q : String) : String :=
  txt (strategistPrompt q (pyStrHits (researchHits o q)))

/-- Number of log entries a terminal branch contributes on its success
path: the in-place state[logs].append calls plus the entries in the
returned partial update.  seo and linkedin each append once in place and
return one entry; the designer appends twice in place (the start entry
and the generated image prompt) and returns one entry. -/
def branchLogCount : Branch → Nat
  | Branch.seo => 2
  | Branch.linkedin => 2
  | Branch.designer => 3

/-- Provider clients on which every network call raises. -/
def emptyClients : ProviderClients :=
  { ddg := fun _ _ => Except.error ("net")
    braveEnv := fun _ => none
    braveNet := fun _ _ => Except.error ("net")
    wiki := fun _ _ => Except.error ("net")
    reddit := fun _ _ => Except.error ("net")
    arxiv := fun _ _ => Except.error ("net")
    github := fun _ _ => Except.error ("net") }

/-- A fixed query used for concrete evaluations. -/
def qW : String := "write a post about AI"

/-- Clients for which duckduckgo and wikipedia each return one hit with
distinct non-empty locators. -/
def cC3 : ProviderClients :=
  { emptyClients with
    ddg := fun _ _ => Except.ok [{ title := "A", body := "a", href := "https://a.example/x" }]
    wiki := fun _ _ => Except.ok { titles := ["B"], descriptions := ["b"], urls := ["https://b.example/y"] } }

/-- The normalized duckduckgo hit produced from cC3. -/
def ddgHitC3 : SearchHit :=
  { title := "A", snippet := "a", url := "https://a.example/x",
    domain := "a.example", source := "duckduckgo", rank := some 1 }

/-- The normalized wikipedia hit produced from cC3. -/
def wikiHitC3 : SearchHit :=
  { title := "B", snippet := "b", url := "https://b.example/y",
    domain := "wikipedia.org", source := "wikipedia" }

/-- Clients for which wikipedia returns a single record whose locator is
the empty string. -/
def cC4 : ProviderClients :=
  { emptyClients with
    wiki := fun _ _ => Except.ok { titles := ["W"], descriptions := ["w"], urls := [""] } }

/-- The normalized empty-locator wikipedia hit produced from cC4. -/
def wHitC4 : SearchHit :=
  { title := "W", snippet := "w", url := "",
    domain := "wikipedia.org", source := "wikipedia" }

/-- Clients for which duckduckgo returns two distinct records that both
have an empty locator. -/
def cC5 : ProviderClients :=
  { emptyClients with
    ddg := fun _ _ => Except.ok
      [{ title := "A", body := "a", href := "" },
       { title := "B", body := "b", href := "" }] }

/-- First normalized empty-locator hit produced from cC5. -/
def hitE1 : SearchHit :=
  { title := "A", snippet := "a", url := "", domain := "",
    source := "duckduckgo", rank := some 1 }

/-- Second normalized empty-locator hit produced from cC5. -/
def hitE2 : SearchHit :=
  { title := "B", snippet := "b", url := "", domain := "",
    source := "duckduckgo", rank := some 2 }

/-- Clients for which duckduckgo returns two hits with distinct non-empty
locators. -/
def cGood : ProviderClients :=
  { emptyClients with
    ddg := fun _ _ => Except.ok
      [{ title := "A", body := "a", href := "https://a.example/x" },
       { title := "B", body := "b", href := "https://b.example/y" }] }

/-- The first normalized hit produced from cGood. -/
def hitA : SearchHit :=
  { title := "A", snippet := "a", url := "https://a.example/x",
    domain := "a.example", source := "duckduckgo", rank := some 1 }

/-- Clients for which duckduckgo returns two records sharing one
non-empty locator. -/
def cDup : ProviderClients :=
  { emptyClients with
    ddg := fun _ _ => Except.ok
      [{ title := "A", body := "a", href := "https://a.example/x" },
       { title := "A2", body := "a2", href := "https://a.example/x" }] }

/-- Oracles on which every llm call fails. -/
def c1Oracle : Oracles :=
  { llm := fun _ => Except.error ("boom")
    imageGen := fun _ => Except.error ("boom")
    openaiKey := none
    providers := emptyClients }

/-- The prompt a terminal branch hands to the generation capability,
built from the content plan it reads. -/
def branchPrompt : Branch → String → String
  | Branch.seo => seoPrompt
  | Branch.linkedin => linkedinPrompt
  | Branch.designer => designerPrompt

/-- Oracles on which text generation succeeds everywhere except on the
seo writer prompt built from the plan GEN, where it fails. -/
def c1BranchOracle : Oracles :=
  { llm := fun p =>
      if p = seoPrompt ("GEN") then Except.error ("branchboom") else Except.ok ("GEN")
    imageGen := fun _ => Except.ok ("IMG")
    openaiKey := some ("k")
    providers := emptyClients }

/-- Oracles on which text generation succeeds but the image credential is
missing, so every image attempt fails. -/
def c7Oracle : Oracles :=
  { llm := fun _ => Except.ok ("GEN")
    imageGen := fun _ => Except.error ("imgboom")
    openaiKey := none
    providers := emptyClients }

/-- Oracles on which text generation and image generation both succeed. -/
def c9Oracle : Oracles :=
  { llm := fun _ => Except.ok ("GEN")
    imageGen := fun _ => Except.ok ("IMG")
    openaiKey := some ("k")
    providers := emptyClients }

/-- Oracles and a state on which every node succeeds, for concrete
evaluation of the node contracts. -/
def okOracle : Oracles :=
  { llm := fun _ => Except.ok ("GEN")
    imageGen := fun _ => Except.ok ("IMG")
    openaiKey := some ("k")
    providers := emptyClients }

/-- A state in which the upstream fields every node reads are present. -/
def sWit : AgentState :=
  { request := qW
    research_data := some []
    content_plan := some ("plan") }

/-- Concrete research_node result on okOracle and sWit. -/
def resW : List String × NodeUpdate := research_node okOracle sWit

/-- Concrete strategist_node result on okOracle and sWit. -/
def stratW : List String × NodeUpdate :=
  (strategist_node okOracle sWit).toOption.getD ([], ({} : NodeUpdate))

/-- Concrete seo_writer_node result on okOracle and sWit. -/
def seoW : List String × NodeUpdate :=
  (seo_writer_node okOracle sWit).toOption.getD ([], ({} : NodeUpdate))

/-- Concrete linkedin_writer_node result on okOracle and sWit. -/
def liW : List String × NodeUpdate :=
  (linkedin_writer_node okOracle sWit).toOption.getD ([], ({} : NodeUpdate))

/-- Concrete image_gen_node result on okOracle and sWit. -/
def desW : List String × NodeUpdate :=
  (image_gen_node okOracle sWit).toOption.getD ([], ({} : NodeUpdate))

/-! ## Properties of the dedup loop -/

/-- The dedup loop never reorders: its output is a sublist of its
input. -/
theorem dedupAux_sublist : ∀ (l : List SearchHit) (seen : List String),
    List.Sublist (dedupAux seen l) l := by
  intro l
  induction l with
  | nil => intro seen; simp [dedupAux]
  | cons x rest ih =>
    intro seen
    rw [dedupAux]
    by_cases hc : x.url ≠ "" ∧ x.url ∉ seen
    · rw [if_pos hc]; exact List.Sublist.cons₂ x (ih _)
    · rw [if_neg hc]; exact List.Sublist.cons x (ih _)

/-- Every record the dedup loop keeps has a non-empty locator. -/
theorem url_ne_of_mem_dedupAux : ∀ (l : List SearchHit) (seen : List String)
    (r : SearchHit), r ∈ dedupAux seen l → r.url ≠ "" := by
  intro l
  induction l with
  | nil => intro seen r h; simp [dedupAux] at h
  | cons x rest ih =>
    intro seen r h
    rw [dedupAux] at h
    by_cases hc : x.url ≠ "" ∧ x.url ∉ seen
    · rw [if_pos hc] at h
      rcases List.mem_cons.mp h with hr | hr
      · exact hr ▸ hc.1
      · exact ih _ _ hr
    · rw [if_neg hc] at h
      exact ih _ _ h

/-- A locator already seen never reappears in the dedup output. -/
theorem dedupAux_filter_of_seen : ∀ (l : List SearchHit) (seen : List String)
    (u : String), u ∈ seen →
    (dedupAux seen l).filter (fun r => r.url == u) = [] := by
  intro l
  induction l with
  | nil => intro seen u _; simp [dedupAux]
  | cons x rest ih =>
    intro seen u hu
    rw [dedupAux]
    by_cases hc : x.url ≠ "" ∧ x.url ∉ seen
    · rw [if_pos hc]
      have hne : (x.url == u) = false := by
        refine beq_eq_false_iff_ne.mpr ?_
        intro he
        exact hc.2 (he ▸ hu)
      rw [List.filter_cons, if_neg (by simp [hne])]
      exact ih _ _ (List.mem_cons_of_mem _ hu)
    · rw [if_neg hc]
      exact ih _ _ hu

/-- Among the records carrying one fixed non-empty locator, exactly the
first of the scan order survives the dedup loop. -/
theorem dedupAux_filter_eq_find : ∀ (l : List SearchHit) (seen : List String)
    (u : String), u ≠ "" → u ∉ seen →
    (dedupAux seen l).filter (fun r => r.url == u) =
      (l.find? (fun r => r.url == u)).toList := by
  intro l
  induction l with
  | nil => intro seen u _ _; simp [dedupAux]
  | cons x rest ih =>
    intro seen u hu hseen
    rw [dedupAux]
    by_cases hx : x.url = u
    · have hc : x.url ≠ "" ∧ x.url ∉ seen := ⟨hx ▸ hu, hx ▸ hseen⟩
      rw [if_pos hc]
      have hbeq : (x.url == u) = true := beq_iff_eq.mpr hx
      have hseen2 : u ∈ x.url :: seen := hx ▸ List.mem_cons_self x.url seen
      simp [hbeq, dedupAux_filter_of_seen rest (x.url :: seen) u hseen2]
    · have hbeq : (x.url == u) = false := beq_eq_false_iff_ne.mpr hx
      by_cases hc : x.url ≠ "" ∧ x.url ∉ seen
      · rw [if_pos hc]
        have h1 : (dedupAux (x.url :: seen) rest).filter (fun r => r.url == u) =
            (rest.find? (fun r => r.url == u)).toList := by
          refine ih _ _ hu ?_
          intro hmem
          rcases List.mem_cons.mp hmem with h | h
          · exact hx h.symm
          · exact hseen h
        simp [hbeq, h1]
      · rw [if_neg hc]
        have h1 := ih seen u hu hseen
        simp [hbeq, h1]

/-- When all locators are non-empty and pairwise distinct (and none is
already seen), the dedup loop keeps everything. -/
theorem dedupAux_eq_self : ∀ (l : List SearchHit) (seen : List String),
    (l.map (fun r => r.url)).Nodup →
    (∀ r ∈ l, r.url ≠ "") →
    (∀ r ∈ l, r.url ∉ seen) →
    dedupAux seen l = l := by
  intro l
  induction l with
  | nil => intro seen _ _ _; rfl
  | cons x rest ih =>
    intro seen hnd hne hseen
    have hndc : x.url ∉ rest.map (fun r => r.url) ∧ (rest.map (fun r => r.url)).Nodup := by
      rw [List.map_cons] at hnd
      exact List.nodup_cons.mp hnd
    have hc : x.url ≠ "" ∧ x.url ∉ seen :=
      ⟨hne x (List.mem_cons_self x rest), hseen x (List.mem_cons_self x rest)⟩
    rw [dedupAux, if_pos hc]
    congr 1
    refine ih _ hndc.2 (fun r hr => hne r (List.mem_cons_of_mem _ hr)) ?_
    intro r hr hmem
    rcases List.mem_cons.mp hmem with h | h
    · exact hndc.1 (h ▸ List.mem_map_of_mem (fun r => r.url) hr)
    · exact hseen r (List.mem_cons_of_mem _ hr) h

/-! ## Claim theorems for the evidence aggregator -/

/-- C3, counterexample to the claim as stated: with providers requested
in the order [wikipedia, duckduckgo], the concatenation in requested
order would put the wikipedia hit first, but aggregate_search returns
the duckduckgo hit first — the method body tests providers in its own
fixed textual order, ignoring the order of the requested set.  The two
hits have distinct non-empty locators, so deduplication plays no
role. -/
theorem c3_counterexample :
    aggregate_search cC3 qW (some ["wikipedia", "duckduckgo"]) = [ddgHitC3, wikiHitC3] ∧
    requestedOrderConcat cC3 qW ["wikipedia", "duckduckgo"] = [wikiHitC3, ddgHitC3] ∧
    ddgHitC3 ≠ wikiHitC3 := by
  refine ⟨by decide, by decide, by decide⟩

/-- C3 (amended): aggregate_search concatenates the per-provider lists
in the fixed canonical order duckduckgo, brave, wikipedia, reddit,
arxiv, github restricted to the requested set — independent of the
order in which the set lists the providers — and falls back to the
default set when sources is None; when the concatenation has pairwise
distinct and non-empty locators the output is exactly that
concatenation, length preserved. -/
theorem c3_canonical_concat (c : ProviderClients) (q : String) (srcs : List String)
    (hnd : ((concatResults c q srcs).map (fun r => r.url)).Nodup)
    (hne : ∀ r ∈ concatResults c q srcs, r.url ≠ "") :
    aggregate_search c q (some srcs) = concatResults c q srcs ∧
    (aggregate_search c q (some srcs)).length = (concatResults c q srcs).length ∧
    aggregate_search c q none = dedupAux [] (concatResults c q defaultSources) := by
  have h : aggregate_search c q (some srcs) = concatResults c q srcs := by
    unfold aggregate_search
    simp only [Option.getD_some]
    exact dedupAux_eq_self _ _ hnd hne (fun r _ => List.not_mem_nil r.url)
  exact ⟨h, by rw [h], rfl⟩

/-- Closed instance of c3_canonical_concat: both hypotheses hold for
cGood and the conclusion follows by applying the theorem. -/
theorem c3_canonical_concat_witness :
    ((concatResults cGood qW ["duckduckgo"]).map (fun r => r.url)).Nodup ∧
    (∀ r ∈ concatResults cGood qW ["duckduckgo"], r.url ≠ "") ∧
    aggregate_search cGood qW (some ["duckduckgo"]) = concatResults cGood qW ["duckduckgo"] :=
  ⟨by decide, by decide,
   (c3_canonical_concat cGood qW ["duckduckgo"] (by decide) (by decide)).1⟩

/-- C4, counterexample to the claim as stated: a record whose locator is
the empty string is not a duplicate of any earlier non-empty locator
(here it is the only record at all), yet it does not survive — the loop
keeps a record only when its locator is non-empty. -/
theorem c4_counterexample :
    search_wikipedia cC4 qW 5 = [wHitC4] ∧ wHitC4.url = "" ∧
    concatResults cC4 qW ["wikipedia"] = [wHitC4] ∧
    aggregate_search cC4 qW (some ["wikipedia"]) = [] := by
  refine ⟨by decide, by decide, by decide, by decide⟩

/-- C4 (amended): for any non-empty locator, the aggregate output keeps
exactly the first record of the concatenated scan order carrying that
locator (later records sharing it are dropped); records with empty
locators are dropped altogether; and the surviving records keep their
relative concatenation order (the output is a sublist of the
concatenation, never re-sorted). -/
theorem c4_stable_first_dedup (c : ProviderClients) (q : String) (srcs : List String)
    (u : String) (hu : u ≠ "") :
    (aggregate_search c q (some srcs)).filter (fun r => r.url == u) =
      ((concatResults c q srcs).find? (fun r => r.url == u)).toList ∧
    List.Sublist (aggregate_search c q (some srcs)) (concatResults c q srcs) := by
  constructor
  · unfold aggregate_search
    simp only [Option.getD_some]
    exact dedupAux_filter_eq_find _ _ u hu (List.not_mem_nil u)
  · unfold aggregate_search
    simp only [Option.getD_some]
    exact dedupAux_sublist _ _

/-- Closed instance of c4_stable_first_dedup at a provider set in which
two records share one non-empty locator. -/
theorem c4_stable_first_dedup_witness :
    (("https://a.example/x" : String) ≠ "") ∧
    ((aggregate_search cDup qW (some ["duckduckgo"])).filter
        (fun r => r.url == "https://a.example/x") =
      ((concatResults cDup qW ["duckduckgo"]).find?
        (fun r => r.url == "https://a.example/x")).toList ∧
    List.Sublist (aggregate_search cDup qW (some ["duckduckgo"]))
      (concatResults cDup qW ["duckduckgo"])) :=
  ⟨by decide,
   c4_stable_first_dedup cDup qW ["duckduckgo"] ("https://a.example/x") (by decide)⟩

/-- C5, counterexample to the claim as stated: two distinct records with
empty locators are indeed not deduplicated against each other, but
neither is kept — the claim says both appear in the output, the code
drops every empty-locator record. -/
theorem c5_counterexample :
    search_duckduckgo cC5 qW 10 = [hitE1, hitE2] ∧ hitE1 ≠ hitE2 ∧
    hitE1.url = "" ∧ hitE2.url = "" ∧
    aggregate_search cC5 qW (some ["duckduckgo"]) = [] := by
  refine ⟨by decide, by decide, by decide, by decide, by decide⟩

/-- C5 (amended): records with an empty locator are excluded from the
aggregate output entirely (dropped by the dedup loop), so in particular
they are never treated as duplicates of each other — every record in the
output has a non-empty locator. -/
theorem c5_empty_locator_dropped (c : ProviderClients) (q : String)
    (srcs : Option (List String)) (r : SearchHit)
    (h : r ∈ aggregate_search c q srcs) : r.url ≠ "" := by
  unfold aggregate_search at h
  exact url_ne_of_mem_dedupAux _ _ r h

/-- Closed instance of c5_empty_locator_dropped at a record that does
appear in a concrete aggregate output. -/
theorem c5_empty_locator_dropped_witness :
    hitA ∈ aggregate_search cGood qW (some ["duckduckgo"]) ∧ hitA.url ≠ "" :=
  ⟨by decide, c5_empty_locator_dropped cGood qW (some ["duckduckgo"]) hitA (by decide)⟩

/-- C6: a raising provider client is absorbed inside its own search
method — the failing provider contributes the empty list and the
aggregate equals the aggregate in which that provider returned no
results, so the results of every other requested provider are unaffected.
aggregate_search itself is a total function of the provider responses:
the only fallible calls in its body are the per-provider methods, each
of which catches its own exceptions, so the call never raises and
always returns a (possibly empty) list. -/
theorem c6_provider_isolation (c : ProviderClients) (q : String)
    (srcs : Option (List String)) (e : String) :
    search_duckduckgo { c with ddg := fun _ _ => Except.error e } q 10 = [] ∧
    aggregate_search { c with ddg := fun _ _ => Except.error e } q srcs =
      aggregate_search { c with ddg := fun _ _ => Except.ok [] } q srcs ∧
    aggregate_search { c with wiki := fun _ _ => Except.error e } q srcs =
      aggregate_search { c with wiki := fun _ _ => Except.ok { titles := [], descriptions := [], urls := [] } } q srcs ∧
    aggregate_search { c with reddit := fun _ _ => Except.error e } q srcs =
      aggregate_search { c with reddit := fun _ _ => Except.ok [] } q srcs ∧
    aggregate_search { c with arxiv := fun _ _ => Except.error e } q srcs =
      aggregate_search { c with arxiv := fun _ _ => Except.ok [] } q srcs ∧
    aggregate_search { c with github := fun _ _ => Except.error e } q srcs =
      aggregate_search { c with github := fun _ _ => Except.ok [] } q srcs := by
  refine ⟨rfl, ?_, ?_, ?_, ?_, ?_⟩ <;>
    simp [aggregate_search, concatResults, search_duckduckgo, search_wikipedia,
      search_reddit, search_arxiv, search_github, search_brave, search_brave_run,
      normalize_duckduckgo]

/-- C10, counterexample to the claim as stated: with the Brave API key
unset, search_brave still does not return at the credential check — the
os module is never imported, so os.getenv raises NameError before the
check and the except clause produces the result (observably: the
failure message is printed on this path). -/
theorem c10_counterexample :
    emptyClients.braveEnv ("BRAVE_API_KEY") = none ∧
    (search_brave_run emptyClients qW 10).2 = BraveExit.exceptionHandler ∧
    BraveExit.exceptionHandler ≠ BraveExit.credentialCheck :=
  ⟨rfl, rfl, by decide⟩

/-- C10 (amended): for every environment and network behaviour, query
and cap, search_brave returns the empty list, always through the
exception handler (os.getenv raises NameError whether or not the key is
set, since os is never imported), and the Brave provider therefore
never contributes a record to the aggregate output. -/
theorem c10_brave_always_empty (c : ProviderClients) (q : String) (n : Nat) :
    search_brave_run c q n = ([], BraveExit.exceptionHandler) ∧
    search_brave c q n = [] ∧
    aggregate_search c q (some ["brave"]) = [] :=
  ⟨rfl, rfl, rfl⟩

/-! ## Claim theorems for the pipeline and the HTTP boundary -/

/-- C1, counterexample to the claim as stated: when the text-generation
capability fails, the strategist node raises out of the pipeline and
invoke returns the error — the failure is not caught inside the step,
no placeholder artifact is written, and no sibling branch runs; the
generation failure propagates as a crash of the whole run. -/
theorem c1_counterexample :
    invoke c1Oracle [Branch.seo, Branch.linkedin, Branch.designer] qW =
      Except.error ("boom") := rfl

/-- C1 (amended): the text llm.invoke calls of the strategist and of
each of the three terminal steps sit in no try/except, so when the
generation capability fails its error propagates out of that step and
aborts the whole pipeline run (only the image-generation call inside
the designer step is caught, see c7_visual_degrade).  Part one: when
every llm call fails with e1, the run aborts with e1 at the strategist,
regardless of the branch schedule.  Part two: for each terminal branch
b, when the strategist call succeeds with some plan but the llm call on
the prompt of b fails with e2, a run that schedules b first aborts with
e2 — the branch node itself propagates the generation failure instead
of catching it and writing a placeholder artifact. -/
theorem c1_uncaught_crash (o1 o2 : Oracles) (q : String) (perm rest : List Branch)
    (b : Branch) (e1 e2 plan : String)
    (h1 : ∀ p, o1.llm p = Except.error e1)
    (h2 : o2.llm (strategistPrompt q (pyStrHits (researchHits o2 q))) = Except.ok plan)
    (h3 : o2.llm (branchPrompt b plan) = Except.error e2) :
    invoke o1 perm q = Except.error e1 ∧
    invoke o2 (b :: rest) q = Except.error e2 := by
  constructor
  · simp [invoke, research_node, strategist_node, applyUpdate, setOnce, h1]
  · simp only [researchHits] at h2
    simp only [branchPrompt] at h3
    cases b <;>
      simp [invoke, initState, research_node, strategist_node, runBranches, branchNode,
        seo_writer_node, linkedin_writer_node, image_gen_node, applyUpdate, setOnce,
        h2, h3]

set_option maxRecDepth 20000 in
/-- Closed instance of c1_uncaught_crash: the all-failing oracle aborts
at the strategist, and an oracle failing only on the seo prompt aborts
a run that schedules the seo writer first. -/
theorem c1_uncaught_crash_witness :
    invoke c1Oracle [Branch.designer, Branch.seo, Branch.linkedin] qW =
      Except.error ("boom") ∧
    invoke c1BranchOracle [Branch.seo, Branch.linkedin, Branch.designer] qW =
      Except.error ("branchboom") :=
  c1_uncaught_crash c1Oracle c1BranchOracle qW
    [Branch.designer, Branch.seo, Branch.linkedin] [Branch.linkedin, Branch.designer]
    Branch.seo ("boom") ("branchboom") ("GEN")
    (fun _ => rfl) rfl rfl

/-- C2: query_agent never reaches the task graph.  agent.py defines no
run_multi_agent_system attribute, so every request raises
AttributeError inside the try block and is returned as a single HTTP
500 failure with a message; the final pipeline state fields are never
serialized back to the caller. -/
theorem c2_every_request_fails (q : String) :
    query_agent q =
      HTTPResult.httpError 500
        ("module \u0027backend.agent\u0027 has no attribute \u0027run_multi_agent_system\u0027") :=
  rfl

/-- C8: single-writer discipline of the state channels.  Whenever the
five node functions produce results, the research update sets only
research_data, the strategist update sets only content_plan, each
terminal writer update sets only its own branch artifact (the designer
owns both visual slots), no update carries a request field at all, and
the merge extends logs and node_details by ordered concatenation of the
contributed entries — the stored prefix is never replaced. -/
theorem c8_single_writer (o : Oracles) (s sa : AgentState)
    (pre1 pre2 pre3 pre4 pre5 pa : List String)
    (u1 u2 u3 u4 u5 ua : NodeUpdate)
    (h1 : research_node o s = (pre1, u1))
    (h2 : strategist_node o s = Except.ok (pre2, u2))
    (h3 : seo_writer_node o s = Except.ok (pre3, u3))
    (h4 : linkedin_writer_node o s = Except.ok (pre4, u4))
    (h5 : image_gen_node o s = Except.ok (pre5, u5)) :
    (u1.research_data ≠ none ∧ u1.content_plan = none ∧ u1.blog_post = none ∧
      u1.linkedin_post = none ∧ u1.image_prompt = none ∧ u1.image_url = none) ∧
    (u2.content_plan ≠ none ∧ u2.research_data = none ∧ u2.blog_post = none ∧
      u2.linkedin_post = none ∧ u2.image_prompt = none ∧ u2.image_url = none) ∧
    (u3.blog_post ≠ none ∧ u3.research_data = none ∧ u3.content_plan = none ∧
      u3.linkedin_post = none ∧ u3.image_prompt = none ∧ u3.image_url = none) ∧
    (u4.linkedin_post ≠ none ∧ u4.research_data = none ∧ u4.content_plan = none ∧
      u4.blog_post = none ∧ u4.image_prompt = none ∧ u4.image_url = none) ∧
    (u5.image_prompt ≠ none ∧ u5.image_url ≠ none ∧ u5.research_data = none ∧
      u5.content_plan = none ∧ u5.blog_post = none ∧ u5.linkedin_post = none) ∧
    (applyUpdate sa pa ua).request = sa.request ∧
    (applyUpdate sa pa ua).logs = sa.logs ++ (pa ++ ua.logs) ∧
    (applyUpdate sa pa ua).node_details = sa.node_details ++ ua.node_details := by
  refine ⟨?_, ?_, ?_, ?_, ?_, rfl, rfl, rfl⟩
  · have hu : u1 = (research_node o s).2 := by rw [h1]
    subst hu
    simp [research_node]
  · have hu : u2 = ((strategist_node o s).toOption.getD ([], ({} : NodeUpdate))).2 := by
      rw [h2]
      rfl
    subst hu
    cases hrd : s.research_data with
    | none => simp [strategist_node, hrd] at h2
    | some research =>
      cases hllm : o.llm (strategistPrompt s.request (pyStrHits research)) with
      | error e => simp [strategist_node, hrd, hllm] at h2
      | ok resp => simp [strategist_node, hrd, hllm, Except.toOption]
  · have hu : u3 = ((seo_writer_node o s).toOption.getD ([], ({} : NodeUpdate))).2 := by
      rw [h3]
      rfl
    subst hu
    cases hcp : s.content_plan with
    | none => simp [seo_writer_node, hcp] at h3
    | some plan =>
      cases hllm : o.llm (seoPrompt plan) with
      | error e => simp [seo_writer_node, hcp, hllm] at h3
      | ok resp => simp [seo_writer_node, hcp, hllm, Except.toOption]
  · have hu : u4 = ((linkedin_writer_node o s).toOption.getD ([], ({} : NodeUpdate))).2 := by
      rw [h4]
      rfl
    subst hu
    cases hcp : s.content_plan with
    | none => simp [linkedin_writer_node, hcp] at h4
    | some plan =>
      cases hllm : o.llm (linkedinPrompt plan) with
      | error e => simp [linkedin_writer_node, hcp, hllm] at h4
      | ok resp => simp [linkedin_writer_node, hcp, hllm, Except.toOption]
  · have hu : u5 = ((image_gen_node o s).toOption.getD ([], ({} : NodeUpdate))).2 := by
      rw [h5]
      rfl
    subst hu
    cases hcp : s.content_plan with
    | none => simp [image_gen_node, hcp] at h5
    | some plan =>
      cases hllm : o.llm (designerPrompt plan) with
      | error e => simp [image_gen_node, hcp, hllm] at h5
      | ok ip =>
        cases hatt : imageAttempt o ip with
        | ok url => simp [image_gen_node, hcp, hllm, hatt, Except.toOption]
        | error e => simp [image_gen_node, hcp, hllm, hatt, Except.toOption]

/-- Closed instance of c8_single_writer with all five nodes evaluated on
a concrete oracle and state.  The hypotheses hold by evaluation. -/
theorem c8_single_writer_witness :
    (resW.2.research_data ≠ none ∧ resW.2.content_plan = none ∧ resW.2.blog_post = none ∧
      resW.2.linkedin_post = none ∧ resW.2.image_prompt = none ∧ resW.2.image_url = none) ∧
    (stratW.2.content_plan ≠ none ∧ stratW.2.research_data = none ∧ stratW.2.blog_post = none ∧
      stratW.2.linkedin_post = none ∧ stratW.2.image_prompt = none ∧ stratW.2.image_url = none) ∧
    (seoW.2.blog_post ≠ none ∧ seoW.2.research_data = none ∧ seoW.2.content_plan = none ∧
      seoW.2.linkedin_post = none ∧ seoW.2.image_prompt = none ∧ seoW.2.image_url = none) ∧
    (liW.2.linkedin_post ≠ none ∧ liW.2.research_data = none ∧ liW.2.content_plan = none ∧
      liW.2.blog_post = none ∧ liW.2.image_prompt = none ∧ liW.2.image_url = none) ∧
    (desW.2.image_prompt ≠ none ∧ desW.2.image_url ≠ none ∧ desW.2.research_data = none ∧
      desW.2.content_plan = none ∧ desW.2.blog_post = none ∧ desW.2.linkedin_post = none) ∧
    (applyUpdate sWit [] ({} : NodeUpdate)).request = sWit.request ∧
    (applyUpdate sWit [] ({} : NodeUpdate)).logs = sWit.logs ++ ([] ++ ({} : NodeUpdate).logs) ∧
    (applyUpdate sWit [] ({} : NodeUpdate)).node_details =
      sWit.node_details ++ ({} : NodeUpdate).node_details :=
  c8_single_writer okOracle sWit sWit resW.1 stratW.1 seoW.1 liW.1 desW.1 []
    resW.2 stratW.2 seoW.2 liW.2 desW.2 {} rfl rfl rfl rfl rfl

/-- C7: when text generation succeeds but the image attempt fails (the
credential is missing or the image endpoint raises), the designer
branch degrades gracefully: the placeholder reference is stored as the
image URL, the generated image-description prompt is still written, the
failure reason is appended to the log, and the outputs of the other two
terminal branches are the normal generation outputs — for every
scheduling order of the three branches. -/
theorem c7_visual_degrade (o : Oracles) (txt ef : String → String) (q : String)
    (perm : List Branch)
    (htxt : ∀ p, o.llm p = Except.ok (txt p))
    (hatt : ∀ p, imageAttempt o p = Except.error (ef p))
    (hperm : perm.Perm [Branch.seo, Branch.linkedin, Branch.designer]) :
    ∃ s', invoke o perm q = Except.ok s' ∧
      s'.image_url = some placeholderUrl ∧
      s'.image_prompt = some (txt (designerPrompt (successPlan o txt q))) ∧
      ("Designer: Image generation failed: " ++
        ef (txt (designerPrompt (successPlan o txt q)))) ∈ s'.logs ∧
      s'.blog_post = some (txt (seoPrompt (successPlan o txt q))) ∧
      s'.linkedin_post = some (txt (linkedinPrompt (successPlan o txt q))) := by
  have hlen := hperm.length_eq
  rcases perm with _ | ⟨a, _ | ⟨b, _ | ⟨c, _ | ⟨d, t⟩⟩⟩⟩
  · simp at hlen
  · simp at hlen
  · simp at hlen
  · cases a <;> cases b <;> cases c <;>
      first
        | exact absurd hperm (by decide)
        | simp [invoke, initState, research_node, strategist_node, seo_writer_node,
            linkedin_writer_node, image_gen_node, runBranches, branchNode, applyUpdate,
            setOnce, htxt, hatt, successPlan, researchHits]
  · simp at hlen

/-- Closed instance of c7_visual_degrade: text generation succeeds on
c7Oracle, the image credential is missing so every image attempt fails,
and the run still completes with the degraded designer slot. -/
theorem c7_visual_degrade_witness :
    ∃ s', invoke c7Oracle [Branch.seo, Branch.linkedin, Branch.designer] qW = Except.ok s' ∧
      s'.image_url = some placeholderUrl ∧
      s'.image_prompt = some ("GEN") ∧
      ("Designer: Image generation failed: " ++ ("OPENAI_API_KEY not found")) ∈ s'.logs ∧
      s'.blog_post = some ("GEN") ∧
      s'.linkedin_post = some ("GEN") :=
  c7_visual_degrade c7Oracle (fun _ => "GEN") (fun _ => "OPENAI_API_KEY not found") qW
    [Branch.seo, Branch.linkedin, Branch.designer]
    (fun _ => rfl) (fun _ => rfl) (List.Perm.refl _)

/-- C9: on a fully successful run (every llm call and the image attempt
succeed), invoke completes and the final log length is exactly the sum
of the entries contributed by each executed step — 2 from the
researcher, 2 from the strategist, and branchLogCount b from each
terminal branch b — independently of the order in which the three
branches are scheduled, so no entry is lost or duplicated by the
fan-out merge. -/
theorem c9_log_length (o : Oracles) (txt urlf : String → String) (q : String)
    (perm : List Branch)
    (htxt : ∀ p, o.llm p = Except.ok (txt p))
    (himg : ∀ p, imageAttempt o p = Except.ok (urlf p))
    (hperm : perm.Perm [Branch.seo, Branch.linkedin, Branch.designer]) :
    ∃ s', invoke o perm q = Except.ok s' ∧
      s'.logs.length = 2 + 2 + (perm.map branchLogCount).sum ∧
      (perm.map branchLogCount).sum =
        branchLogCount Branch.seo + branchLogCount Branch.linkedin +
          branchLogCount Branch.designer := by
  have hlen := hperm.length_eq
  rcases perm with _ | ⟨a, _ | ⟨b, _ | ⟨c, _ | ⟨d, t⟩⟩⟩⟩
  · simp at hlen
  · simp at hlen
  · simp at hlen
  · cases a <;> cases b <;> cases c <;>
      first
        | exact absurd hperm (by decide)
        | simp [invoke, initState, research_node, strategist_node, seo_writer_node,
            linkedin_writer_node, image_gen_node, runBranches, branchNode, applyUpdate,
            setOnce, htxt, himg, branchLogCount]
  · simp at hlen

/-- Closed instance of c9_log_length on the fully successful oracle. -/
theorem c9_log_length_witness :
    ∃ s', invoke c9Oracle [Branch.seo, Branch.linkedin, Branch.designer] qW = Except.ok s' ∧
      s'.logs.length =
        2 + 2 + (([Branch.seo, Branch.linkedin, Branch.designer].map branchLogCount).sum) ∧
      (([Branch.seo, Branch.linkedin, Branch.designer].map branchLogCount).sum) =
        branchLogCount Branch.seo + branchLogCount Branch.linkedin +
          branchLogCount Branch.designer :=
  c9_log_length c9Oracle (fun _ => "GEN") (fun _ => "IMG") qW
    [Branch.seo, Branch.linkedin, Branch.designer]
    (fun _ => rfl) (fun _ => rfl) (List.Perm.refl _)
